import Mathlib

/-!
# Verification of the OpenAI agent worker (`packages/core/src/agent/openai/worker.ts`)

A shallow embedding of the agent task-execution loop of this repository:
the `OpenAIAgentWorker` step state machine, its tool-call dispatch, memory
handling, and task finalization.  Stateful TypeScript methods become pure
Lean functions with explicit state passing; `async` methods that can throw
become `Except String` computations; JavaScript host facilities
(`JSON.parse`, `String()` coercion, `randomUUID`) are modelled explicitly
(`randomUUID` by threading fresh identifiers as arguments, the LLM chat
endpoint by a response oracle field on the worker).

Classes of the repository that the worker uses but whose source files are
not part of the verified snapshot (`ChatMemoryBuffer`, `ToolOutput`,
`getFunctionByName`, `callToolWithErrorHandling`, `TaskStep`,
`TaskStepOutput`, `toOpenAiTool`, `addUserStepToMemory`) are modelled from
the specification and marked `Modelled from the spec:` in their doc
comments.
-/

namespace LlamaAgent

/-- JavaScript / JSON values as exchanged with tools: the argument
dictionaries produced by `JSON.parse` and the raw results returned by tool
invocations.  Numbers are modelled as integers (every numeric payload in
the repository's examples is integral). -/
inductive JsVal where
  | null : JsVal
  | bool (b : Bool) : JsVal
  | num (n : Int) : JsVal
  | str (s : String) : JsVal
  | arr (elems : List JsVal) : JsVal
  | obj (fields : List (String × JsVal)) : JsVal

/-- Left brace character (written via its code point). -/
def lbrace : Char := Char.ofNat 123

/-- Right brace character (written via its code point). -/
def rbrace : Char := Char.ofNat 125

/-- JSON whitespace characters. -/
def isWsChar (c : Char) : Bool :=
  c = ' ' || c = '\n' || c = '\t' || c = '\r'

/-- Drop leading JSON whitespace. -/
def skipWs : List Char → List Char
  | [] => []
  | c :: cs => if isWsChar c then skipWs cs else c :: cs

/-- Accumulate a run of decimal digits into a natural number. -/
def digitsAcc : Nat → List Char → Nat × List Char
  | acc, c :: cs =>
    if c.isDigit then digitsAcc (acc * 10 + (c.toNat - 48)) cs else (acc, c :: cs)
  | acc, [] => (acc, [])

/-- Parse a JSON integer numeral (after an optional leading minus sign has
been consumed). -/
def parseNumber (neg : Bool) : List Char → Except String (JsVal × List Char)
  | c :: cs =>
    if c.isDigit then
      let p := digitsAcc (c.toNat - 48) cs
      Except.ok (JsVal.num (if neg then -(Int.ofNat p.1) else Int.ofNat p.1), p.2)
    else Except.error "Unexpected token in JSON"
  | [] => Except.error "Unexpected end of JSON input"

/-- Translation of a single-character JSON string escape. -/
def escChar (e : Char) : Option Char :=
  if e = '"' || e = '\\' || e = '/' then some e
  else if e = 'n' then some '\n'
  else if e = 't' then some '\t'
  else if e = 'r' then some '\r'
  else if e = 'b' then some (Char.ofNat 8)
  else if e = 'f' then some (Char.ofNat 12)
  else none

/-- Parse the body of a JSON string up to and including the closing quote,
returning the decoded characters and the remaining input. -/
def parseStringBody : List Char → Except String (List Char × List Char)
  | [] => Except.error "Unterminated string in JSON"
  | c :: cs =>
    if c = '"' then Except.ok ([], cs)
    else if c = '\\' then
      match cs with
      | [] => Except.error "Unterminated string in JSON"
      | e :: cs2 =>
        match escChar e with
        | none => Except.error "Unsupported escape in JSON"
        | some ch =>
          match parseStringBody cs2 with
          | Except.ok (body, rest) => Except.ok (ch :: body, rest)
          | Except.error er => Except.error er
    else
      match parseStringBody cs with
      | Except.ok (body, rest) => Except.ok (c :: body, rest)
      | Except.error er => Except.error er

/-- Match an expected literal suffix (used for `true`, `false`, `null`). -/
def stripLit : List Char → List Char → Option (List Char)
  | [], input => some input
  | l :: ls, c :: cs => if c = l then stripLit ls cs else none
  | _ :: _, [] => none

mutual

/-- Recursive-descent JSON value parser, fuelled by a bound on nesting
recursion depth (one unit of fuel per recursive call; callers supply the
input length, which suffices because every recursive call first consumes
at least one character). -/
def parseVal : Nat → List Char → Except String (JsVal × List Char)
  | 0, _ => Except.error "JSON value too deeply nested"
  | fuel + 1, input =>
    match skipWs input with
    | [] => Except.error "Unexpected end of JSON input"
    | c :: cs =>
      if c = lbrace then
        match skipWs cs with
        | [] => Except.error "Unexpected end of JSON input"
        | c2 :: cs2 =>
          if c2 = rbrace then Except.ok (JsVal.obj [], cs2)
          else parseObjFields fuel (c2 :: cs2)
      else if c = '[' then
        match skipWs cs with
        | [] => Except.error "Unexpected end of JSON input"
        | c2 :: cs2 =>
          if c2 = ']' then Except.ok (JsVal.arr [], cs2)
          else parseArrElems fuel (c2 :: cs2)
      else if c = '"' then
        match parseStringBody cs with
        | Except.ok (body, rest) => Except.ok (JsVal.str (String.mk body), rest)
        | Except.error e => Except.error e
      else if c = '-' then parseNumber true cs
      else if c.isDigit then parseNumber false (c :: cs)
      else if c = 't' then
        match stripLit ['r', 'u', 'e'] cs with
        | some rest => Except.ok (JsVal.bool true, rest)
        | none => Except.error "Unexpected token in JSON"
      else if c = 'f' then
        match stripLit ['a', 'l', 's', 'e'] cs with
        | some rest => Except.ok (JsVal.bool false, rest)
        | none => Except.error "Unexpected token in JSON"
      else if c = 'n' then
        match stripLit ['u', 'l', 'l'] cs with
        | some rest => Except.ok (JsVal.null, rest)
        | none => Except.error "Unexpected token in JSON"
      else Except.error "Unexpected token in JSON"

/-- Parse the members of a JSON object after the opening brace (the input
is known not to start with the closing brace). -/
def parseObjFields : Nat → List Char → Except String (JsVal × List Char)
  | 0, _ => Except.error "JSON value too deeply nested"
  | fuel + 1, input =>
    match skipWs input with
    | [] => Except.error "Unexpected end of JSON input"
    | c :: cs =>
      if c = '"' then
        match parseStringBody cs with
        | Except.error e => Except.error e
        | Except.ok (keyChars, rest1) =>
          match skipWs rest1 with
          | [] => Except.error "Unexpected end of JSON input"
          | c2 :: rest2 =>
            if c2 = ':' then
              match parseVal fuel rest2 with
              | Except.error e => Except.error e
              | Except.ok (v, rest3) =>
                match skipWs rest3 with
                | [] => Except.error "Unexpected end of JSON input"
                | c3 :: rest4 =>
                  if c3 = ',' then
                    match parseObjFields fuel rest4 with
                    | Except.ok (JsVal.obj fields, rest5) =>
                      Except.ok (JsVal.obj ((String.mk keyChars, v) :: fields), rest5)
                    | Except.ok _ => Except.error "Malformed JSON object"
                    | Except.error e => Except.error e
                  else if c3 = rbrace then
                    Except.ok (JsVal.obj [(String.mk keyChars, v)], rest4)
                  else Except.error "Expected comma or closing brace in JSON object"
            else Except.error "Expected colon in JSON object"
      else Except.error "Expected string key in JSON object"

/-- Parse the elements of a JSON array after the opening bracket (the
input is known not to start with the closing bracket). -/
def parseArrElems : Nat → List Char → Except String (JsVal × List Char)
  | 0, _ => Except.error "JSON value too deeply nested"
  | fuel + 1, input =>
    match parseVal fuel input with
    | Except.error e => Except.error e
    | Except.ok (v, rest1) =>
      match skipWs rest1 with
      | [] => Except.error "Unexpected end of JSON input"
      | c :: rest2 =>
        if c = ',' then
          match parseArrElems fuel rest2 with
          | Except.ok (JsVal.arr elems, rest3) => Except.ok (JsVal.arr (v :: elems), rest3)
          | Except.ok _ => Except.error "Malformed JSON array"
          | Except.error e => Except.error e
        else if c = ']' then Except.ok (JsVal.arr [v], rest2)
        else Except.error "Expected comma or closing bracket in JSON array"

end

/-- Model of the JavaScript `JSON.parse` builtin used at
`worker.ts:47` (`const argumentDict = JSON.parse(argumentsStr)`), on
the JSON fragment exchanged with tools: objects, arrays, strings with
single-character escapes, integer numerals, and the three literals.
Fractional or exponent numerals and `\u` escapes are outside the modelled
fragment.  A thrown `SyntaxError` is modelled as `Except.error`. -/
def jsonParse (s : String) : Except String JsVal :=
  match parseVal (s.length + 1) s.data with
  | Except.error e => Except.error e
  | Except.ok (v, rest) =>
    match skipWs rest with
    | [] => Except.ok v
    | _ => Except.error "Unexpected trailing characters in JSON"

example : jsonParse "\x7b\"a\": 2, \"b\": 2\x7d" =
    Except.ok (JsVal.obj [("a", JsVal.num 2), ("b", JsVal.num 2)]) := by rfl

example : (jsonParse "not json").toOption = none := by rfl

/-- JavaScript string coercion of a `JsVal` (the result of `String(...)`
applied to a raw tool result).  Modelled from the spec: "Tool output that
is not a string is coerced to a string representation"; the round-trip
property of spec section 8 fixes the coercion of the number `4` to the
string `"4"`. -/
def stringOfJsVal : JsVal → String
  | JsVal.null => "null"
  | JsVal.bool true => "true"
  | JsVal.bool false => "false"
  | JsVal.num n => toString n
  | JsVal.str s => s
  | JsVal.arr _ => "[array]"
  | JsVal.obj _ => "[object Object]"

/-- Roles of chat messages (spec section 3: system, user, assistant, tool). -/
inductive MessageRole where
  | system
  | user
  | assistant
  | tool
deriving DecidableEq

/-- The `function` part of an OpenAI tool-call request: target tool name
and the serialized JSON argument payload (`agent/openai/types/chat.ts`). -/
structure FunctionCall where
  name : String
  arguments : String
deriving DecidableEq

/-- An OpenAI tool-call request: `{id, function}`; the `function` member is
optional because `OpenAIAgentWorker.callFunction` guards against its
absence (`worker.ts:233`). -/
structure OpenAIToolCall where
  id : String
  function : Option FunctionCall
deriving DecidableEq

/-- The `additionalKwargs` bag carried by chat messages: tool metadata on
tool-role messages (`worker.ts:62`), tool-call requests on assistant
messages (`worker.ts:150`). -/
structure AdditionalKwargs where
  name : Option String := none
  tool_call_id : Option String := none
  toolCalls : Option (List OpenAIToolCall) := none
deriving DecidableEq

/-- A chat message: role, text content, optional additional kwargs
(spec section 3). -/
structure ChatMessage where
  role : MessageRole
  content : String
  additionalKwargs : Option AdditionalKwargs := none
deriving DecidableEq

/-- The tool-call list requested by a message, read through the optional
kwargs bag exactly as `additionalKwargs?.toolCalls` does at
`worker.ts:150`. -/
def msgToolCalls (m : ChatMessage) : Option (List OpenAIToolCall) :=
  m.additionalKwargs.bind (fun kw => kw.toolCalls)

/-- Modelled from the spec: `ChatMemoryBuffer`
(`packages/core/src/memory/ChatMemoryBuffer.ts`, not part of the verified
snapshot).  Spec section 4.1: an ordered message log where `get()` returns
the full ordered sequence, `getAll()` is equivalent to `get()`,
`put(message)` appends one message, `reset()` clears all messages, and the
content is replaceable wholesale (`set`). -/
structure ChatMemoryBuffer where
  messages : List ChatMessage
deriving DecidableEq

/-- Memory contract (spec section 4.1): `get()` returns the full ordered
message sequence. -/
def ChatMemoryBuffer.get (m : ChatMemoryBuffer) : List ChatMessage := m.messages

/-- Memory contract (spec section 4.1): `getAll()` is equivalent to
`get()`. -/
def ChatMemoryBuffer.getAll (m : ChatMemoryBuffer) : List ChatMessage := m.messages

/-- Memory contract (spec section 4.1): `put(message)` appends one
message. -/
def ChatMemoryBuffer.put (m : ChatMemoryBuffer) (msg : ChatMessage) : ChatMemoryBuffer :=
  ChatMemoryBuffer.mk (m.messages ++ [msg])

/-- Memory contract (spec section 4.1): `reset()` clears all messages. -/
def ChatMemoryBuffer.reset (_m : ChatMemoryBuffer) : ChatMemoryBuffer :=
  ChatMemoryBuffer.mk []

/-- Memory contract (spec section 4.1): wholesale replacement of the
message sequence (used by `finalizeTask` at `worker.ts:400`). -/
def ChatMemoryBuffer.set (_m : ChatMemoryBuffer) (msgs : List ChatMessage) : ChatMemoryBuffer :=
  ChatMemoryBuffer.mk msgs

/-- Tool metadata advertised to the LLM: name, description, JSON parameter
schema (spec section 6). -/
structure ToolMetadata where
  name : String
  description : String
  parameters : Option JsVal := none

/-- Modelled from the spec: `BaseTool` (`packages/core/src/Tool.ts`, not
part of the verified snapshot).  Spec section 6: a tool exposes metadata
and a single invoke operation taking a parsed argument object and
returning an arbitrary result or raising a descriptive failure. -/
structure BaseTool where
  metadata : ToolMetadata
  call : JsVal → Except String JsVal

/-- Modelled from the spec: `ToolOutput` (`packages/core/src/tools/types.ts`,
not part of the verified snapshot).  Spec section 3: raw tool result,
success/error indicator, human-readable summary. -/
structure ToolOutput where
  content : String
  rawOutput : JsVal
  isError : Bool

/-- Modelled from the spec: the JavaScript `String()` coercion applied to
a `ToolOutput` at `worker.ts:60`; it yields the output's human-readable
summary. -/
def stringOfToolOutput (output : ToolOutput) : String := output.content

/-- An OpenAI tool schema entry as sent with the chat request:
`{type: "function", function: {name, description, parameters}}`.
Modelled from the spec: `toOpenAiTool` lives in
`packages/core/src/agent/openai/utils.ts`, not part of the verified
snapshot; spec section 4.2 step 3 requires attaching name, description and
JSON parameter schema. -/
structure OpenAiFunction where
  type : String
  function : ToolMetadata

/-- Modelled from the spec: conversion of tool metadata to the OpenAI tool
schema shape (see `OpenAiFunction`). -/
def toOpenAiTool (metadata : ToolMetadata) : OpenAiFunction :=
  OpenAiFunction.mk "function" metadata

/-- Modelled from the spec: `getFunctionByName`
(`packages/core/src/agent/utils.ts`, not part of the verified snapshot).
Spec section 4.4: locate the tool by exact name match; absence is reported
to the dispatch helper (which turns it into an error-flagged `ToolOutput`)
instead of failing the step. -/
def getFunctionByName (tools : List BaseTool) (name : String) : Option BaseTool :=
  tools.find? (fun tool => tool.metadata.name == name)

/-- Modelled from the spec: `callToolWithErrorHandling`
(`packages/core/src/tools/utils.ts`, not part of the verified snapshot).
Spec section 4.4: if the tool is absent, produce a `ToolOutput` flagged as
an error with a descriptive message instead of failing the whole step; if
present, invoke it with the parsed argument object and wrap any
invocation-time failure as an error-flagged `ToolOutput` rather than
propagating. -/
def callToolWithErrorHandling (tool : Option BaseTool) (inputDict : JsVal) : ToolOutput :=
  match tool with
  | none => ToolOutput.mk "Error: Tool not found" (JsVal.str "Error: Tool not found") true
  | some t =>
    match t.call inputDict with
    | Except.ok value => ToolOutput.mk (stringOfJsVal value) value false
    | Except.error e =>
      ToolOutput.mk ("Error: " ++ e) (JsVal.str ("Error: " ++ e)) true

/-- The module-level `callFunction` helper (`worker.ts:31-69`): reads the
tool-call id, name and serialized arguments, locates the tool, parses the
arguments with `JSON.parse` (a thrown `SyntaxError` propagates — there is
no surrounding try/catch), dispatches through the error-handling helper
and packages the result as a tool-role chat message plus the
`ToolOutput`.  Accessing `toolCall.function` when it is absent is the
JavaScript property-access failure. -/
def callFunction (tools : List BaseTool) (toolCall : OpenAIToolCall) :
    Except String (ChatMessage × ToolOutput) :=
  match toolCall.function with
  | none => Except.error "TypeError: toolCall.function is undefined"
  | some functionCall =>
    let name := functionCall.name
    let argumentsStr := functionCall.arguments
    let tool := getFunctionByName tools name
    match jsonParse argumentsStr with
    | Except.error e => Except.error e
    | Except.ok argumentDict =>
      let output := callToolWithErrorHandling tool argumentDict
      Except.ok
        (ChatMessage.mk MessageRole.tool (stringOfToolOutput output)
          (some (AdditionalKwargs.mk (some name) (some toolCall.id) none)),
         output)


/-- The per-task scratch state installed by `initializeStep`
(`worker.ts:257-261`): accumulated tool-output sources, the running count
of completed function calls, and the scratch memory. -/
structure ExtraState where
  sources : List ToolOutput
  nFunctionCalls : Nat
  newMemory : ChatMemoryBuffer

/-- A task (spec section 3): identifier, original input text, persistent
memory, and the scratch "extra state" bag. -/
structure Task where
  taskId : String
  input : String
  memory : ChatMemoryBuffer
  extraState : ExtraState

/-- Modelled from the spec: `TaskStep` (`packages/core/src/agent/types.ts`,
not part of the verified snapshot).  Spec section 3:
`{taskId, stepId, input (optional)}`. -/
structure TaskStep where
  taskId : String
  stepId : String
  input : Option String
deriving DecidableEq

/-- Modelled from the spec: `TaskStep.getNextStep` produces the successor
step for the same task with a fresh step id and the given (absent on
continuation) input, as used at `worker.ts:355`. -/
def TaskStep.getNextStep (step : TaskStep) (stepId : String) (input : Option String) : TaskStep :=
  TaskStep.mk step.taskId stepId input

/-- The response payload wrapped around the assistant message at
`worker.ts:189`: response text plus the accumulated tool-output sources. -/
structure AgentChatResponse where
  response : String
  sources : List ToolOutput

/-- Modelled from the spec: `TaskStepOutput`
(`packages/core/src/agent/types.ts`, not part of the verified snapshot).
Spec section 3: `{response, originating step, next steps, isDone flag}`. -/
structure TaskStepOutput where
  output : AgentChatResponse
  taskStep : TaskStep
  nextSteps : List TaskStep
  isDone : Bool

/-- Chat response modes (`engines/chat`): blocking wait or streaming. -/
inductive ChatResponseMode where
  | WAIT
  | STREAM
deriving DecidableEq

/-- The keyword arguments assembled for the LLM chat call by
`_getLlmChatKwargs` (`worker.ts:160-175`): the message list always, the
tool schemas and tool-choice policy only when the schema list is
non-empty. -/
structure LlmChatKwargs where
  messages : List ChatMessage
  tools : Option (List OpenAiFunction) := none
  toolChoice : Option String := none

/-- The state of a constructed `OpenAIAgentWorker` (`worker.ts:85-123`):
the LLM chat endpoint (an external collaborator, modelled as a response
oracle from the assembled kwargs to the assistant message), verbosity,
the maximum-function-calls bound, prefix instructions, and the resolved
tool source (`this._getTools`).  The callback manager is external glue
and not modelled. -/
structure OpenAIAgentWorker where
  llm : LlmChatKwargs → ChatMessage
  verbose : Bool
  maxFunctionCalls : Nat
  prefixMessages : List ChatMessage
  getTools : String → List BaseTool

/-- `DEFAULT_MAX_FUNCTION_CALLS` (`worker.ts:22`). -/
def DEFAULT_MAX_FUNCTION_CALLS : Nat := 5

/-- The constructor parameter bag `OpenAIAgentWorkerParams`
(`worker.ts:71-79`); the LLM oracle stands in for the `llm ?? new OpenAI(...)`
external default. -/
structure OpenAIAgentWorkerParams where
  tools : List BaseTool
  llm : LlmChatKwargs → ChatMessage
  prefixMessages : Option (List ChatMessage) := none
  verbose : Option Bool := none
  maxFunctionCalls : Nat := DEFAULT_MAX_FUNCTION_CALLS
  toolRetriever : Option (String → List BaseTool) := none

/-- The `OpenAIAgentWorker` constructor (`worker.ts:98-123`): rejects a
non-empty static tool list combined with a tool retriever, otherwise picks
the tool source (static list, retriever, or constantly empty).  The thrown
`Error` is modelled as `Except.error`. -/
def OpenAIAgentWorker.create (params : OpenAIAgentWorkerParams) :
    Except String OpenAIAgentWorker :=
  if params.tools.length > 0 && params.toolRetriever.isSome then
    Except.error "Cannot specify both tools and tool_retriever"
  else if params.tools.length > 0 then
    Except.ok
      (OpenAIAgentWorker.mk params.llm (params.verbose.getD false) params.maxFunctionCalls
        (params.prefixMessages.getD []) (fun _ => params.tools))
  else
    match params.toolRetriever with
    | some retriever =>
      Except.ok
        (OpenAIAgentWorker.mk params.llm (params.verbose.getD false) params.maxFunctionCalls
          (params.prefixMessages.getD []) retriever)
    | none =>
      Except.ok
        (OpenAIAgentWorker.mk params.llm (params.verbose.getD false) params.maxFunctionCalls
          (params.prefixMessages.getD []) (fun _ => []))

/-- `getAllMessages` (`worker.ts:130-136`): prefix instructions, then
persistent memory, then scratch memory. -/
def OpenAIAgentWorker.getAllMessages (w : OpenAIAgentWorker) (task : Task) : List ChatMessage :=
  w.prefixMessages ++ task.memory.get ++ task.extraState.newMemory.get

/-- `getLatestToolCalls` (`worker.ts:143-151`): `null` when the scratch
history is empty, otherwise the (possibly absent) tool-call list of the
last scratch message. -/
def OpenAIAgentWorker.getLatestToolCalls (task : Task) : Option (List OpenAIToolCall) :=
  match task.extraState.newMemory.getAll.getLast? with
  | none => none
  | some msg => msgToolCalls msg

/-- `_getLlmChatKwargs` (`worker.ts:160-175`): the messages always; the
tool schemas and the tool-choice policy only when the schema list is
non-empty. -/
def OpenAIAgentWorker.getLlmChatKwargs (w : OpenAIAgentWorker) (task : Task)
    (openaiTools : List OpenAiFunction) (toolChoice : String) : LlmChatKwargs :=
  if openaiTools.length > 0 then
    LlmChatKwargs.mk (w.getAllMessages task) (some openaiTools) (some toolChoice)
  else
    LlmChatKwargs.mk (w.getAllMessages task) none none

/-- JavaScript truthiness of an optional string (`if (step.input)` at
`worker.ts:311` and `worker.ts:315`): absent and empty strings are
falsy. -/
def truthy : Option String → Bool
  | none => false
  | some s => !(s == "")

/-- JavaScript `a || b` on an optional string (`kwargs?.toolChoice || "auto"`
at `worker.ts:373`). -/
def jsOrElse (value : Option String) (fallback : String) : String :=
  match value with
  | none => fallback
  | some s => if s == "" then fallback else s

/-- Modelled from the spec: `addUserStepToMemory`
(`packages/core/src/agent/utils.ts`, not part of the verified snapshot).
Spec section 4.2 step 2: append the step's fresh input as a user message
into scratch memory. -/
def addUserStepToMemory (step : TaskStep) (memory : ChatMemoryBuffer) : ChatMemoryBuffer :=
  memory.put (ChatMessage.mk MessageRole.user (step.input.getD "") none)

/-- The scratch-memory update at the head of `_runStep`
(`worker.ts:311-313`): the step's input is appended as a user message when
it is (truthy) present. -/
def stepTask1 (step : TaskStep) (task : Task) : Task :=
  if truthy step.input then
    Task.mk task.taskId task.input task.memory
      (ExtraState.mk task.extraState.sources task.extraState.nFunctionCalls
        (addUserStepToMemory step task.extraState.newMemory))
  else task

/-- The tool-schema list built by `_runStep` (`worker.ts:309,315-323`):
non-empty only when the step carries (truthy) input, in which case every
resolved tool's metadata is converted to the OpenAI schema shape. -/
def OpenAIAgentWorker.stepOpenaiTools (w : OpenAIAgentWorker) (step : TaskStep) (task : Task) :
    List OpenAiFunction :=
  if truthy step.input then
    (w.getTools task.input).map (fun tool =>
      toOpenAiTool
        (ToolMetadata.mk tool.metadata.name tool.metadata.description tool.metadata.parameters))
  else []

/-- The kwargs `_runStep` passes to the LLM chat call (`worker.ts:325`):
`_getLlmChatKwargs` applied to the task after the user-step memory update,
the step's tool-schema list, and the tool choice. -/
def OpenAIAgentWorker.runStepKwargs (w : OpenAIAgentWorker) (step : TaskStep) (task : Task)
    (toolChoice : String) : LlmChatKwargs :=
  w.getLlmChatKwargs (stepTask1 step task) (w.stepOpenaiTools step task) toolChoice

/-- `_shouldContinue` (`worker.ts:277-290`): continue only when the
function-call count has not exceeded the bound and at least one tool call
was requested. -/
def OpenAIAgentWorker.shouldContinue (w : OpenAIAgentWorker)
    (toolCalls : Option (List OpenAIToolCall)) (nFunctionCalls : Nat) : Bool :=
  if nFunctionCalls > w.maxFunctionCalls then false
  else
    match toolCalls with
    | none => false
    | some calls => !calls.isEmpty

/-- The `callFunction` method (`worker.ts:225-244`): rejects a tool call
without a `function` member, then delegates to the module-level helper,
pushes the `ToolOutput` onto the sources and appends the tool message to
the given memory. -/
def OpenAIAgentWorker.callFunction (_w : OpenAIAgentWorker) (tools : List BaseTool)
    (toolCall : OpenAIToolCall) (memory : ChatMemoryBuffer) (sources : List ToolOutput) :
    Except String (ChatMemoryBuffer × List ToolOutput) :=
  match toolCall.function with
  | none => Except.error "Invalid tool_call object"
  | some _ =>
    match LlamaAgent.callFunction tools toolCall with
    | Except.error e => Except.error e
    | Except.ok (message, toolOutput) =>
      Except.ok (memory.put message, sources ++ [toolOutput])

/-- The tool-call loop of `_runStep` (`worker.ts:345-353`): dispatch each
requested call in order through the `callFunction` method, updating
scratch memory and sources and incrementing the function-call counter
after each call; a raised error aborts the whole step. -/
def OpenAIAgentWorker.dispatchToolCalls (w : OpenAIAgentWorker) (tools : List BaseTool) :
    List OpenAIToolCall → Task → Except String Task
  | [], task => Except.ok task
  | toolCall :: rest, task =>
    match w.callFunction tools toolCall task.extraState.newMemory task.extraState.sources with
    | Except.error e => Except.error e
    | Except.ok (newMemory, sources) =>
      w.dispatchToolCalls tools rest
        (Task.mk task.taskId task.input task.memory
          (ExtraState.mk sources (task.extraState.nFunctionCalls + 1) newMemory))

/-- The assistant message `_runStep` obtains from the LLM chat endpoint
(`worker.ts:327`, through `_getAgentResponse`). -/
def OpenAIAgentWorker.stepAiMessage (w : OpenAIAgentWorker) (step : TaskStep) (task : Task)
    (toolChoice : String) : ChatMessage :=
  w.llm (w.runStepKwargs step task toolChoice)

/-- The task state after `_processMessage` (`worker.ts:183-190`): the
user-step update followed by appending the assistant message to scratch
memory. -/
def OpenAIAgentWorker.stepTask2 (w : OpenAIAgentWorker) (step : TaskStep) (task : Task)
    (toolChoice : String) : Task :=
  let task1 := stepTask1 step task
  Task.mk task1.taskId task1.input task1.memory
    (ExtraState.mk task1.extraState.sources task1.extraState.nFunctionCalls
      (task1.extraState.newMemory.put (w.stepAiMessage step task toolChoice)))

/-- The step's response payload (`worker.ts:189`): the assistant message
content together with the tool-output sources as they stand right after
`_processMessage` (before this step's dispatch). -/
def OpenAIAgentWorker.stepResponse (w : OpenAIAgentWorker) (step : TaskStep) (task : Task)
    (toolChoice : String) : AgentChatResponse :=
  AgentChatResponse.mk (w.stepAiMessage step task toolChoice).content
    (w.stepTask2 step task toolChoice).extraState.sources

/-- The tool-call list `_runStep` reads back after the response was
appended, defaulted to the empty list (`worker.ts:333`). -/
def OpenAIAgentWorker.stepLatestToolCalls (w : OpenAIAgentWorker) (step : TaskStep)
    (task : Task) (toolChoice : String) : List OpenAIToolCall :=
  (OpenAIAgentWorker.getLatestToolCalls (w.stepTask2 step task toolChoice)).getD []

/-- `_runStep` (`worker.ts:301-359`): resolve tools, append the user step
to scratch memory when input is present, build the LLM kwargs, obtain the
assistant message (streaming is an explicit unimplemented failure,
`worker.ts:213`), append it to scratch memory, read the latest tool-call
list (defaulted to empty), and either terminate the step or dispatch every
requested call and emit exactly one successor step with absent input. -/
def OpenAIAgentWorker.runStepImpl (w : OpenAIAgentWorker) (step : TaskStep) (task : Task)
    (mode : ChatResponseMode) (toolChoice : String) (newStepId : String) :
    Except String (Task × TaskStepOutput) :=
  let tools := w.getTools task.input
  match mode with
  | ChatResponseMode.STREAM => Except.error "Not implemented"
  | ChatResponseMode.WAIT =>
    let task2 := w.stepTask2 step task toolChoice
    let agentChatResponse := w.stepResponse step task toolChoice
    let latestToolCalls := w.stepLatestToolCalls step task toolChoice
    if w.shouldContinue (some latestToolCalls) task2.extraState.nFunctionCalls then
      match w.dispatchToolCalls tools latestToolCalls task2 with
      | Except.error e => Except.error e
      | Except.ok task3 =>
        Except.ok (task3,
          TaskStepOutput.mk agentChatResponse step [step.getNextStep newStepId none] false)
    else
      Except.ok (task2, TaskStepOutput.mk agentChatResponse step [] true)

/-- `runStep` (`worker.ts:368-375`): the blocking-mode step with the
caller-overridable tool choice defaulting to `"auto"`. -/
def OpenAIAgentWorker.runStep (w : OpenAIAgentWorker) (step : TaskStep) (task : Task)
    (toolChoice : Option String) (newStepId : String) : Except String (Task × TaskStepOutput) :=
  w.runStepImpl step task ChatResponseMode.WAIT (jsOrElse toolChoice "auto") newStepId

/-- `streamStep` (`worker.ts:384-391`): the streaming-mode step (which the
core reports as unimplemented). -/
def OpenAIAgentWorker.streamStep (w : OpenAIAgentWorker) (step : TaskStep) (task : Task)
    (toolChoice : Option String) (newStepId : String) : Except String (Task × TaskStepOutput) :=
  w.runStepImpl step task ChatResponseMode.STREAM (jsOrElse toolChoice "auto") newStepId

/-- `initializeStep` (`worker.ts:252-269`): reset the task's scratch state
and return the first step carrying the task's original input; the fresh
step id stands in for `randomUUID()`. -/
def OpenAIAgentWorker.initializeStep (_w : OpenAIAgentWorker) (task : Task) (stepId : String) :
    Task × TaskStep :=
  (Task.mk task.taskId task.input task.memory
    (ExtraState.mk [] 0 (ChatMemoryBuffer.mk [])),
   TaskStep.mk task.taskId stepId (some task.input))

/-- `finalizeTask` (`worker.ts:399-403`): replace persistent memory with
its concatenation with the scratch memory, then reset the scratch
memory. -/
def OpenAIAgentWorker.finalizeTask (_w : OpenAIAgentWorker) (task : Task) : Task :=
  Task.mk task.taskId task.input
    (task.memory.set (task.memory.get ++ task.extraState.newMemory.get))
    (ExtraState.mk task.extraState.sources task.extraState.nFunctionCalls
      (task.extraState.newMemory.reset))

/-! ## Helper lemmas about the step state machine -/

theorem stepTask1_taskId (step : TaskStep) (task : Task) :
    (stepTask1 step task).taskId = task.taskId := by
  unfold stepTask1; split <;> rfl

theorem stepTask1_input (step : TaskStep) (task : Task) :
    (stepTask1 step task).input = task.input := by
  unfold stepTask1; split <;> rfl

theorem stepTask1_memory (step : TaskStep) (task : Task) :
    (stepTask1 step task).memory = task.memory := by
  unfold stepTask1; split <;> rfl

theorem stepTask1_sources (step : TaskStep) (task : Task) :
    (stepTask1 step task).extraState.sources = task.extraState.sources := by
  unfold stepTask1; split <;> rfl

theorem stepTask1_nFunctionCalls (step : TaskStep) (task : Task) :
    (stepTask1 step task).extraState.nFunctionCalls = task.extraState.nFunctionCalls := by
  unfold stepTask1; split <;> rfl

theorem stepTask2_taskId (w : OpenAIAgentWorker) (step : TaskStep) (task : Task)
    (toolChoice : String) : (w.stepTask2 step task toolChoice).taskId = task.taskId := by
  simp [OpenAIAgentWorker.stepTask2, stepTask1_taskId]

theorem stepTask2_input (w : OpenAIAgentWorker) (step : TaskStep) (task : Task)
    (toolChoice : String) : (w.stepTask2 step task toolChoice).input = task.input := by
  simp [OpenAIAgentWorker.stepTask2, stepTask1_input]

theorem stepTask2_memory (w : OpenAIAgentWorker) (step : TaskStep) (task : Task)
    (toolChoice : String) : (w.stepTask2 step task toolChoice).memory = task.memory := by
  simp [OpenAIAgentWorker.stepTask2, stepTask1_memory]

theorem stepTask2_sources (w : OpenAIAgentWorker) (step : TaskStep) (task : Task)
    (toolChoice : String) :
    (w.stepTask2 step task toolChoice).extraState.sources = task.extraState.sources := by
  simp [OpenAIAgentWorker.stepTask2, stepTask1_sources]

theorem stepTask2_nFunctionCalls (w : OpenAIAgentWorker) (step : TaskStep) (task : Task)
    (toolChoice : String) :
    (w.stepTask2 step task toolChoice).extraState.nFunctionCalls =
      task.extraState.nFunctionCalls := by
  simp [OpenAIAgentWorker.stepTask2, stepTask1_nFunctionCalls]

theorem stepTask2_newMemory_getAll (w : OpenAIAgentWorker) (step : TaskStep) (task : Task)
    (toolChoice : String) :
    (w.stepTask2 step task toolChoice).extraState.newMemory.getAll =
      (stepTask1 step task).extraState.newMemory.getAll ++
        [w.stepAiMessage step task toolChoice] := by
  simp [OpenAIAgentWorker.stepTask2, ChatMemoryBuffer.put, ChatMemoryBuffer.getAll]

/-- The tool-call list `_runStep` reads back from scratch memory right
after `_processMessage` is exactly the assistant message's tool-call
list. -/
theorem getLatestToolCalls_stepTask2 (w : OpenAIAgentWorker) (step : TaskStep) (task : Task)
    (toolChoice : String) :
    OpenAIAgentWorker.getLatestToolCalls (w.stepTask2 step task toolChoice) =
      msgToolCalls (w.stepAiMessage step task toolChoice) := by
  unfold OpenAIAgentWorker.getLatestToolCalls
  rw [stepTask2_newMemory_getAll, List.getLast?_concat]

/-- A true continuation verdict implies the function-call count is within
the bound. -/
theorem shouldContinue_true_le (w : OpenAIAgentWorker)
    (toolCalls : Option (List OpenAIToolCall)) (n : Nat)
    (h : w.shouldContinue toolCalls n = true) : n <= w.maxFunctionCalls := by
  unfold OpenAIAgentWorker.shouldContinue at h
  by_cases hn : n > w.maxFunctionCalls
  · rw [if_pos hn] at h; cases h
  · omega

/-- An empty requested tool-call list always stops the loop. -/
theorem shouldContinue_nil (w : OpenAIAgentWorker) (n : Nat) :
    w.shouldContinue (some []) n = false := by
  unfold OpenAIAgentWorker.shouldContinue
  split <;> rfl

/-- The tool-call dispatch loop, when it completes without raising, leaves
the task identity and persistent memory untouched and advances the
function-call counter by exactly the number of dispatched calls. -/
theorem dispatchToolCalls_ok_frame (w : OpenAIAgentWorker) (tools : List BaseTool)
    (calls : List OpenAIToolCall) :
    forall (task task' : Task),
      w.dispatchToolCalls tools calls task = Except.ok task' ->
      task'.memory = task.memory /\ task'.taskId = task.taskId /\
        task'.input = task.input /\
        task'.extraState.nFunctionCalls =
          task.extraState.nFunctionCalls + calls.length := by
  induction calls with
  | nil =>
    intro task task' h
    simp only [OpenAIAgentWorker.dispatchToolCalls, Except.ok.injEq] at h
    subst h
    simp
  | cons toolCall rest ih =>
    intro task task' h
    simp only [OpenAIAgentWorker.dispatchToolCalls] at h
    cases hc : w.callFunction tools toolCall task.extraState.newMemory task.extraState.sources with
    | error e => rw [hc] at h; exact Except.noConfusion h
    | ok pair =>
      obtain ⟨mem2, srcs2⟩ := pair
      rw [hc] at h
      obtain ⟨h1, h2, h3, h4⟩ := ih _ _ h
      refine ⟨by rw [h1], by rw [h2], by rw [h3], ?_⟩
      rw [h4]
      simp only [List.length_cons]
      omega

/-! ## Concrete fixtures

Small concrete workers, tasks and steps used to evaluate the embedding on
explicit inputs, mirroring the repository's own agent example (a
`sumNumbers` function tool asked to sum 2 + 2). -/

/-- The `sumNumbers` function tool of the repository's agent example:
returns the sum of the `a` and `b` fields of its argument object. -/
def sumNumbersTool : BaseTool :=
  BaseTool.mk (ToolMetadata.mk "sumNumbers" "Sum two numbers" none)
    (fun v =>
      match v with
      | JsVal.obj [("a", JsVal.num a), ("b", JsVal.num b)] => Except.ok (JsVal.num (a + b))
      | _ => Except.error "Invalid arguments")

/-- An empty memory buffer. -/
def emptyMemory : ChatMemoryBuffer := ChatMemoryBuffer.mk []

/-- An assistant reply with no tool calls. -/
def plainAssistantMessage : ChatMessage :=
  ChatMessage.mk MessageRole.assistant "The sum is 4" none

/-- An assistant reply requesting the given tool calls. -/
def assistantRequesting (calls : List OpenAIToolCall) : ChatMessage :=
  ChatMessage.mk MessageRole.assistant ""
    (some (AdditionalKwargs.mk none none (some calls)))

/-- A fresh task (empty persistent memory, zeroed scratch state) with the
given input. -/
def freshTask (input : String) : Task :=
  Task.mk "task1" input emptyMemory (ExtraState.mk [] 0 emptyMemory)

/-- The tool call of the round-trip scenario: `sumNumbers` on
`{"a": 2, "b": 2}`. -/
def sumToolCall : OpenAIToolCall :=
  OpenAIToolCall.mk "call_1" (some (FunctionCall.mk "sumNumbers" "\x7b\"a\": 2, \"b\": 2\x7d"))

/-- Round-trip worker: one `sumNumbers` tool, an LLM oracle that always
requests the single `sumNumbers` call, default bound. -/
def c6Worker : OpenAIAgentWorker :=
  OpenAIAgentWorker.mk (fun _ => assistantRequesting [sumToolCall]) false
    DEFAULT_MAX_FUNCTION_CALLS [] (fun _ => [sumNumbersTool])

/-- Round-trip task. -/
def c6Task : Task := freshTask "sum 2 + 2?"

/-- Round-trip first step (carrying the task input). -/
def c6Step : TaskStep := TaskStep.mk "task1" "step1" (some "sum 2 + 2?")

/-- The round-trip `runStep` result. -/
def c6Run : Except String (Task × TaskStepOutput) :=
  c6Worker.runStep c6Step c6Task (some "auto") "step2"

/-! ## Claims -/

/-- C2: for every task, `finalizeTask` makes the persistent memory equal
to the previous persistent memory concatenated with the scratch memory's
messages in order, and leaves the scratch memory empty afterwards. -/
theorem finalizeTask_appends_scratch_and_clears (w : OpenAIAgentWorker) (task : Task) :
    (w.finalizeTask task).memory.get =
        task.memory.get ++ task.extraState.newMemory.get ∧
      (w.finalizeTask task).extraState.newMemory.get = [] :=
  ⟨rfl, rfl⟩

/-- C6: with the fixed LLM response carrying exactly one tool call for the
`sumNumbers` tool on arguments `a = 2, b = 2` (a tool returning the value
4 there), the tool-role message appended to scratch memory has content
exactly the string `"4"`, and the task's function-call counter increments
from 0 to 1. -/
theorem roundTrip_toolMessage_content_and_counter :
    (c6Run.toOption.map fun result =>
        (result.1.extraState.newMemory.get.getLast?.map fun m => (m.role, m.content),
         result.1.extraState.nFunctionCalls)) =
      some (some (MessageRole.tool, "4"), 1) ∧
    c6Task.extraState.nFunctionCalls = 0 ∧
    sumNumbersTool.call (JsVal.obj [("a", JsVal.num 2), ("b", JsVal.num 2)]) =
      Except.ok (JsVal.num 4) :=
  ⟨rfl, rfl, rfl⟩

/-- C8: constructing an `OpenAIAgentWorker` with both a non-empty static
tool list and a tool retriever fails immediately at construction with the
configuration error (no step executes, no LLM call is made: `create`
returns no worker at all). -/
theorem create_rejects_tools_with_retriever (params : OpenAIAgentWorkerParams)
    (htools : params.tools ≠ []) (hretriever : params.toolRetriever.isSome = true) :
    OpenAIAgentWorker.create params =
      Except.error "Cannot specify both tools and tool_retriever" := by
  have hlen : params.tools.length > 0 := List.length_pos.mpr htools
  unfold OpenAIAgentWorker.create
  rw [if_pos (by simp [hlen, hretriever])]

/-- Concrete configuration supplying both a static tool and a retriever. -/
def c8Params : OpenAIAgentWorkerParams :=
  OpenAIAgentWorkerParams.mk [sumNumbersTool] (fun _ => plainAssistantMessage) none none
    DEFAULT_MAX_FUNCTION_CALLS (some (fun _ => [sumNumbersTool]))

/-- Witness for C8 at the concrete both-supplied configuration. -/
theorem create_rejects_tools_with_retriever_witness :
    OpenAIAgentWorker.create c8Params =
      Except.error "Cannot specify both tools and tool_retriever" :=
  create_rejects_tools_with_retriever c8Params (by simp [c8Params]) (by rfl)

/-- Worker for the C4 scenario: a non-empty static tool set. -/
def c4Worker : OpenAIAgentWorker :=
  OpenAIAgentWorker.mk (fun _ => plainAssistantMessage) false DEFAULT_MAX_FUNCTION_CALLS []
    (fun _ => [sumNumbersTool])

/-- A continuation step (absent input), as produced by
`step.getNextStep(randomUUID(), undefined)` at `worker.ts:355`. -/
def c4ContinuationStep : TaskStep := TaskStep.mk "task1" "step2" none

/-- C4 counterexample: on a continuation step (input absent) the LLM
request built by `_runStep` attaches no tool schemas even though the
resolved tool set is non-empty — refuting "this holds on every step of a
task, not only the first". -/
theorem continuation_step_omits_tool_schemas :
    (c4Worker.runStepKwargs c4ContinuationStep (freshTask "sum 2 + 2?") "auto").tools = none ∧
    (c4Worker.runStepKwargs c4ContinuationStep (freshTask "sum 2 + 2?") "auto").toolChoice =
      none ∧
    c4Worker.getTools (freshTask "sum 2 + 2?").input ≠ [] :=
  ⟨rfl, rfl, by simp [c4Worker]⟩

/-- C4 (amended): the LLM request built by `_runStep` attaches the tool
schemas (name, description, JSON parameter schema) and the tool-choice
exactly on steps that carry (truthy) input — the first step — and whose
resolved tool set is non-empty; the tool choice defaults to `"auto"` and
is caller-overridable.  On continuation steps no schemas are attached even
when the resolved tool set is non-empty. -/
theorem tool_schemas_attached_iff_input_step (w : OpenAIAgentWorker) (step : TaskStep)
    (task : Task) (toolChoice : String) (newStepId : String) :
    ((w.runStepKwargs step task toolChoice).tools =
        if truthy step.input && !(w.getTools task.input).isEmpty then
          some (w.stepOpenaiTools step task)
        else none) ∧
    ((w.runStepKwargs step task toolChoice).toolChoice =
        if truthy step.input && !(w.getTools task.input).isEmpty then some toolChoice
        else none) ∧
    w.runStep step task none newStepId =
      w.runStepImpl step task ChatResponseMode.WAIT "auto" newStepId := by
  refine ⟨?_, ?_, rfl⟩ <;>
  · unfold OpenAIAgentWorker.runStepKwargs OpenAIAgentWorker.getLlmChatKwargs
    by_cases hin : truthy step.input = true
    · by_cases hnil : (w.getTools task.input).isEmpty = true
      · have h0 : w.stepOpenaiTools step task = [] := by
          unfold OpenAIAgentWorker.stepOpenaiTools
          simp [hin, List.isEmpty_iff.mp hnil]
        simp [h0, hin, hnil]
      · have h0 : (w.stepOpenaiTools step task).length > 0 := by
          unfold OpenAIAgentWorker.stepOpenaiTools
          simp only [hin, if_true, List.length_map]
          exact List.length_pos.mpr (by simpa using hnil)
        simp [h0, hin, hnil]
    · have h0 : w.stepOpenaiTools step task = [] := by
        unfold OpenAIAgentWorker.stepOpenaiTools
        simp [hin]
      simp [h0, hin]

/-- Case analysis on a successful `runStep`: either the continuation
predicate failed and the step is terminal with the post-response task, or
it held and the result is the fully dispatched task with exactly one
successor step carrying no input. -/
theorem runStep_ok_cases (w : OpenAIAgentWorker) (step : TaskStep) (task : Task)
    (toolChoice : Option String) (newStepId : String) (task' : Task) (out : TaskStepOutput)
    (h : w.runStep step task toolChoice newStepId = Except.ok (task', out)) :
    (w.shouldContinue (some (w.stepLatestToolCalls step task (jsOrElse toolChoice "auto")))
          task.extraState.nFunctionCalls = false ∧
        task' = w.stepTask2 step task (jsOrElse toolChoice "auto") ∧
        out = TaskStepOutput.mk (w.stepResponse step task (jsOrElse toolChoice "auto")) step
          [] true) ∨
      (w.shouldContinue (some (w.stepLatestToolCalls step task (jsOrElse toolChoice "auto")))
          task.extraState.nFunctionCalls = true ∧
        w.dispatchToolCalls (w.getTools task.input)
            (w.stepLatestToolCalls step task (jsOrElse toolChoice "auto"))
            (w.stepTask2 step task (jsOrElse toolChoice "auto")) = Except.ok task' ∧
        out = TaskStepOutput.mk (w.stepResponse step task (jsOrElse toolChoice "auto")) step
          [step.getNextStep newStepId none] false) := by
  unfold OpenAIAgentWorker.runStep OpenAIAgentWorker.runStepImpl at h
  dsimp only at h
  rw [stepTask2_nFunctionCalls] at h
  split at h
  · rename_i hcont
    right
    refine ⟨hcont, ?_⟩
    split at h
    · exact Except.noConfusion h
    · rename_i task3 heq
      simp only [Except.ok.injEq, Prod.mk.injEq] at h
      obtain ⟨h1, h2⟩ := h
      subst h1
      subst h2
      exact ⟨heq, rfl⟩
  · rename_i hcont
    left
    simp only [Except.ok.injEq, Prod.mk.injEq] at h
    obtain ⟨h1, h2⟩ := h
    subst h1
    subst h2
    exact ⟨by simpa using hcont, rfl, rfl⟩

/-- A second tool call for the same tool with a distinct id, forming a
batch of two requests. -/
def sumToolCallB : OpenAIToolCall :=
  OpenAIToolCall.mk "call_2" (some (FunctionCall.mk "sumNumbers" "\x7b\"a\": 2, \"b\": 2\x7d"))

/-- Worker with the maximum-function-calls bound configured to 1 whose LLM
oracle requests a batch of two tool calls in one response. -/
def c1Worker : OpenAIAgentWorker :=
  OpenAIAgentWorker.mk (fun _ => assistantRequesting [sumToolCall, sumToolCallB]) false 1 []
    (fun _ => [sumNumbersTool])

/-- One `runStep` of `c1Worker` on a fresh task. -/
def c1Run : Except String (Task × TaskStepOutput) :=
  c1Worker.runStep c6Step c6Task (some "auto") "step2"

/-- C1 counterexample: with the bound configured to 1 and a fresh task
(counter 0), a single `runStep` dispatches the whole requested batch of
two calls, driving `task.extraState.nFunctionCalls` to 2 — strictly above
the configured maximum-function-calls bound. -/
theorem nFunctionCalls_exceeds_bound_counterexample :
    (c1Run.toOption.map fun result => result.1.extraState.nFunctionCalls) = some 2 ∧
      c1Worker.maxFunctionCalls < 2 ∧ c6Task.extraState.nFunctionCalls = 0 :=
  ⟨rfl, by decide, rfl⟩

/-- C1 (amended): the completed-call counter can pass the bound only by
finishing the batch of the step in which it was still within the bound:
a `runStep` changes the counter only if the count at the step's start is
at most the configured maximum, and once the count exceeds the bound the
next `runStep` returns `isDone = true` with no successor steps and an
unchanged counter, regardless of outstanding tool-call requests. -/
theorem nFunctionCalls_bound_step_behavior (w : OpenAIAgentWorker) (step : TaskStep)
    (task : Task) (toolChoice : Option String) (newStepId : String)
    (task' : Task) (out : TaskStepOutput)
    (h : w.runStep step task toolChoice newStepId = Except.ok (task', out)) :
    (task.extraState.nFunctionCalls > w.maxFunctionCalls →
        out.isDone = true ∧ out.nextSteps = [] ∧
        task'.extraState.nFunctionCalls = task.extraState.nFunctionCalls) ∧
    (task'.extraState.nFunctionCalls ≠ task.extraState.nFunctionCalls →
        task.extraState.nFunctionCalls ≤ w.maxFunctionCalls) := by
  rcases runStep_ok_cases w step task toolChoice newStepId task' out h with
    ⟨hcont, rfl, rfl⟩ | ⟨hcont, hdisp, rfl⟩
  · constructor
    · intro _
      exact ⟨rfl, rfl, stepTask2_nFunctionCalls w step task _⟩
    · intro hne
      exact absurd (stepTask2_nFunctionCalls w step task _) hne
  · have hle := shouldContinue_true_le _ _ _ hcont
    constructor
    · intro hgt
      exact absurd hle (by omega)
    · intro _
      exact hle

/-- Worker for the over-bound witness scenario: bound 1, no tools, an LLM
oracle that still requests a tool call (an outstanding request). -/
def doneWorker : OpenAIAgentWorker :=
  OpenAIAgentWorker.mk (fun _ => assistantRequesting [sumToolCall]) false 1 [] (fun _ => [])

/-- A mid-conversation task whose completed-call counter (3) already
exceeds `doneWorker`'s bound (1). -/
def doneTask : Task :=
  Task.mk "task1" "sum 2 + 2?" emptyMemory (ExtraState.mk [] 3 emptyMemory)

/-- A continuation step for the over-bound scenario. -/
def doneStep : TaskStep := TaskStep.mk "task1" "step3" none

/-- The task state after the over-bound `runStep` (only the assistant
message was appended to scratch memory). -/
def doneTaskAfter : Task :=
  Task.mk "task1" "sum 2 + 2?" emptyMemory
    (ExtraState.mk [] 3 (ChatMemoryBuffer.mk [assistantRequesting [sumToolCall]]))

/-- The terminal output of the over-bound `runStep`. -/
def doneOut : TaskStepOutput :=
  TaskStepOutput.mk (AgentChatResponse.mk "" []) doneStep [] true

/-- Witness for the amended C1: at the concrete over-bound task the next
`runStep` is terminal with no successors and an unchanged counter even
though a tool call is outstanding. -/
theorem nFunctionCalls_bound_step_behavior_witness :
    doneTask.extraState.nFunctionCalls > doneWorker.maxFunctionCalls ∧
      (doneOut.isDone = true ∧ doneOut.nextSteps = [] ∧
        doneTaskAfter.extraState.nFunctionCalls = doneTask.extraState.nFunctionCalls) :=
  ⟨by decide,
    (nFunctionCalls_bound_step_behavior doneWorker doneStep doneTask (some "auto") "step4"
        doneTaskAfter doneOut (by rfl)).1 (by decide)⟩

/-- C9: every `TaskStepOutput` returned by a successful `runStep` has
`isDone` true exactly when its successor list is empty, and a non-empty
successor list is exactly one `TaskStep` with absent input. -/
theorem stepOutput_isDone_iff_no_successors (w : OpenAIAgentWorker) (step : TaskStep)
    (task : Task) (toolChoice : Option String) (newStepId : String)
    (task' : Task) (out : TaskStepOutput)
    (h : w.runStep step task toolChoice newStepId = Except.ok (task', out)) :
    (out.isDone = true ↔ out.nextSteps = []) ∧
    (out.nextSteps ≠ [] → out.nextSteps = [TaskStep.mk step.taskId newStepId none]) := by
  rcases runStep_ok_cases w step task toolChoice newStepId task' out h with
    ⟨_, _, rfl⟩ | ⟨_, _, rfl⟩
  · exact ⟨by simp, fun hne => absurd rfl hne⟩
  · exact ⟨by simp, fun _ => rfl⟩

/-- Witness for C9 at the concrete over-bound terminal step. -/
theorem stepOutput_isDone_iff_no_successors_witness :
    (doneOut.isDone = true ↔ doneOut.nextSteps = []) ∧
    (doneOut.nextSteps ≠ [] → doneOut.nextSteps = [TaskStep.mk doneStep.taskId "step4" none]) :=
  stepOutput_isDone_iff_no_successors doneWorker doneStep doneTask (some "auto") "step4"
    doneTaskAfter doneOut (by rfl)

/-- C10: a successful `runStep` never modifies the task's persistent
memory, identifier or input; those change only through `finalizeTask`
(only the scratch extra state changes during a step). -/
theorem runStep_preserves_persistent_memory (w : OpenAIAgentWorker) (step : TaskStep)
    (task : Task) (toolChoice : Option String) (newStepId : String)
    (task' : Task) (out : TaskStepOutput)
    (h : w.runStep step task toolChoice newStepId = Except.ok (task', out)) :
    task'.memory = task.memory ∧ task'.taskId = task.taskId ∧ task'.input = task.input := by
  rcases runStep_ok_cases w step task toolChoice newStepId task' out h with
    ⟨_, rfl, _⟩ | ⟨_, hdisp, _⟩
  · exact ⟨stepTask2_memory w step task _, stepTask2_taskId w step task _,
      stepTask2_input w step task _⟩
  · obtain ⟨h1, h2, h3, _⟩ :=
      dispatchToolCalls_ok_frame w (w.getTools task.input)
        (w.stepLatestToolCalls step task (jsOrElse toolChoice "auto"))
        (w.stepTask2 step task (jsOrElse toolChoice "auto")) task' hdisp
    exact ⟨h1.trans (stepTask2_memory w step task _),
      h2.trans (stepTask2_taskId w step task _),
      h3.trans (stepTask2_input w step task _)⟩

/-- The `ToolOutput` of the successful round-trip `sumNumbers` call. -/
def sumToolOutput : ToolOutput := ToolOutput.mk "4" (JsVal.num 4) false

/-- The tool-role message of the successful round-trip call. -/
def sumToolMessage : ChatMessage :=
  ChatMessage.mk MessageRole.tool "4"
    (some (AdditionalKwargs.mk (some "sumNumbers") (some "call_1") none))

/-- The task state after the round-trip `runStep` (user message, assistant
request and tool message in scratch memory; one source; counter 1). -/
def c6TaskAfter : Task :=
  Task.mk "task1" "sum 2 + 2?" emptyMemory
    (ExtraState.mk [sumToolOutput] 1
      (ChatMemoryBuffer.mk
        [ChatMessage.mk MessageRole.user "sum 2 + 2?" none,
         assistantRequesting [sumToolCall], sumToolMessage]))

/-- The continuing output of the round-trip `runStep`. -/
def c6Out : TaskStepOutput :=
  TaskStepOutput.mk (AgentChatResponse.mk "" []) c6Step [TaskStep.mk "task1" "step2" none] false

/-- Witness for C10 at the concrete round-trip step (a step that really
dispatches a tool call). -/
theorem runStep_preserves_persistent_memory_witness :
    c6TaskAfter.memory = c6Task.memory ∧ c6TaskAfter.taskId = c6Task.taskId ∧
      c6TaskAfter.input = c6Task.input :=
  runStep_preserves_persistent_memory c6Worker c6Step c6Task (some "auto") "step2"
    c6TaskAfter c6Out (by rfl)

/-- A non-empty requested tool-call list with the counter within the
bound continues the loop. -/
theorem shouldContinue_cons (w : OpenAIAgentWorker) (toolCall : OpenAIToolCall)
    (rest : List OpenAIToolCall) (n : Nat) (h : n ≤ w.maxFunctionCalls) :
    w.shouldContinue (some (toolCall :: rest)) n = true := by
  unfold OpenAIAgentWorker.shouldContinue
  rw [if_neg (by omega)]
  rfl

/-- C7: if the resolved tool set is empty and the LLM response requests
zero tool calls, a single `runStep` succeeds with `isDone = true` and an
empty successor list, and no tool dispatch occurs (sources and
function-call counter unchanged). -/
theorem pure_chat_single_step_done (w : OpenAIAgentWorker) (step : TaskStep) (task : Task)
    (toolChoice : Option String) (newStepId : String)
    (_htools : w.getTools task.input = [])
    (hcalls : (msgToolCalls (w.stepAiMessage step task (jsOrElse toolChoice "auto"))).getD []
      = []) :
    ∃ result : Task × TaskStepOutput,
      w.runStep step task toolChoice newStepId = Except.ok result ∧
        result.2.isDone = true ∧ result.2.nextSteps = [] ∧
        result.1.extraState.nFunctionCalls = task.extraState.nFunctionCalls ∧
        result.1.extraState.sources = task.extraState.sources := by
  have hlatest : w.stepLatestToolCalls step task (jsOrElse toolChoice "auto") = [] := by
    unfold OpenAIAgentWorker.stepLatestToolCalls
    rw [getLatestToolCalls_stepTask2]
    exact hcalls
  refine ⟨(w.stepTask2 step task (jsOrElse toolChoice "auto"),
    TaskStepOutput.mk (w.stepResponse step task (jsOrElse toolChoice "auto")) step [] true),
    ?_, rfl, rfl, stepTask2_nFunctionCalls w step task _, stepTask2_sources w step task _⟩
  unfold OpenAIAgentWorker.runStep OpenAIAgentWorker.runStepImpl
  dsimp only
  rw [hlatest, shouldContinue_nil]
  simp

/-- Pure-chat worker: no tools, and an LLM oracle answering without any
tool-call request. -/
def pureWorker : OpenAIAgentWorker :=
  OpenAIAgentWorker.mk (fun _ => plainAssistantMessage) false DEFAULT_MAX_FUNCTION_CALLS []
    (fun _ => [])

/-- A fresh pure-chat task. -/
def pureTask : Task := freshTask "hello"

/-- The pure-chat first step. -/
def pureStep : TaskStep := TaskStep.mk "task1" "step1" (some "hello")

/-- Witness for C7 at the concrete pure-chat configuration. -/
theorem pure_chat_single_step_done_witness :
    pureWorker.getTools pureTask.input = [] ∧
      ∃ result : Task × TaskStepOutput,
        pureWorker.runStep pureStep pureTask none "step2" = Except.ok result ∧
          result.2.isDone = true ∧ result.2.nextSteps = [] ∧
          result.1.extraState.nFunctionCalls = pureTask.extraState.nFunctionCalls ∧
          result.1.extraState.sources = pureTask.extraState.sources :=
  ⟨rfl, pure_chat_single_step_done pureWorker pureStep pureTask none "step2" rfl (by rfl)⟩

/-- A tool call for the known tool whose argument payload is not valid
JSON. -/
def badJsonToolCall : OpenAIToolCall :=
  OpenAIToolCall.mk "call_bad" (some (FunctionCall.mk "sumNumbers" "not json"))

/-- Worker whose LLM oracle requests the malformed-arguments call. -/
def c5Worker : OpenAIAgentWorker :=
  OpenAIAgentWorker.mk (fun _ => assistantRequesting [badJsonToolCall]) false
    DEFAULT_MAX_FUNCTION_CALLS [] (fun _ => [sumNumbersTool])

/-- One `runStep` of `c5Worker` on a fresh task. -/
def c5Run : Except String (Task × TaskStepOutput) :=
  c5Worker.runStep c6Step c6Task (some "auto") "step2"

/-- C5 counterexample: a tool call for a known tool whose serialized
argument payload is not valid JSON makes `runStep` raise — the
`JSON.parse` failure propagates out of the step — instead of being
treated as a recoverable tool-call error. -/
theorem invalid_json_fatal_counterexample :
    c5Run.toOption = none ∧ (jsonParse "not json").toOption = none ∧
      getFunctionByName (c5Worker.getTools c6Task.input) "sumNumbers" = some sumNumbersTool :=
  ⟨rfl, rfl, rfl⟩

/-- C5 (amended): a tool-call request whose serialized argument payload is
not valid JSON is fatal to the step: the `callFunction` dispatch
propagates the `JSON.parse` failure as an error instead of producing an
error-flagged `ToolOutput` and a tool-role message. -/
theorem invalid_json_propagates_error (w : OpenAIAgentWorker) (tools : List BaseTool)
    (toolCall : OpenAIToolCall) (functionCall : FunctionCall)
    (memory : ChatMemoryBuffer) (sources : List ToolOutput) (e : String)
    (hfc : toolCall.function = some functionCall)
    (hparse : jsonParse functionCall.arguments = Except.error e) :
    w.callFunction tools toolCall memory sources = Except.error e := by
  unfold OpenAIAgentWorker.callFunction LlamaAgent.callFunction
  rw [hfc]
  dsimp only
  rw [hparse]

/-- Witness for the amended C5 at the concrete malformed payload. -/
theorem invalid_json_propagates_error_witness :
    c5Worker.callFunction [sumNumbersTool] badJsonToolCall emptyMemory [] =
      Except.error "Unexpected token in JSON" :=
  invalid_json_propagates_error c5Worker [sumNumbersTool] badJsonToolCall
    (FunctionCall.mk "sumNumbers" "not json") emptyMemory [] "Unexpected token in JSON"
    rfl (by rfl)

/-- The module-level `callFunction` on an unknown tool name with a parsed
argument payload: it succeeds with the error-flagged `ToolOutput` of the
spec's dispatch contract and the corresponding tool-role message. -/
theorem callFunction_unknown_tool (tools : List BaseTool) (toolCall : OpenAIToolCall)
    (functionCall : FunctionCall) (argumentDict : JsVal)
    (hfc : toolCall.function = some functionCall)
    (hunknown : getFunctionByName tools functionCall.name = none)
    (hparse : jsonParse functionCall.arguments = Except.ok argumentDict) :
    LlamaAgent.callFunction tools toolCall =
      Except.ok
        (ChatMessage.mk MessageRole.tool
          (stringOfToolOutput (callToolWithErrorHandling none argumentDict))
          (some (AdditionalKwargs.mk (some functionCall.name) (some toolCall.id) none)),
         callToolWithErrorHandling none argumentDict) := by
  unfold LlamaAgent.callFunction
  rw [hfc]
  dsimp only
  rw [hparse, hunknown]

/-- The `callFunction` method on an unknown tool name with a parsed
argument payload: the error-flagged `ToolOutput` is pushed onto the
sources and the tool message is appended to memory. -/
theorem callFunction_method_unknown_tool (w : OpenAIAgentWorker) (tools : List BaseTool)
    (toolCall : OpenAIToolCall) (functionCall : FunctionCall) (argumentDict : JsVal)
    (memory : ChatMemoryBuffer) (sources : List ToolOutput)
    (hfc : toolCall.function = some functionCall)
    (hunknown : getFunctionByName tools functionCall.name = none)
    (hparse : jsonParse functionCall.arguments = Except.ok argumentDict) :
    w.callFunction tools toolCall memory sources =
      Except.ok
        (memory.put
          (ChatMessage.mk MessageRole.tool
            (stringOfToolOutput (callToolWithErrorHandling none argumentDict))
            (some (AdditionalKwargs.mk (some functionCall.name) (some toolCall.id) none))),
         sources ++ [callToolWithErrorHandling none argumentDict]) := by
  unfold OpenAIAgentWorker.callFunction
  rw [hfc]
  dsimp only
  rw [callFunction_unknown_tool tools toolCall functionCall argumentDict hfc hunknown hparse]

/-- C3 (amended): when the LLM response requests exactly one tool call,
for a tool whose name matches no tool in the resolved tool set and whose
argument payload is valid JSON, and the counter is within the bound, then
`runStep` does not raise: it succeeds, the dispatch appends an
error-flagged `ToolOutput` to the sources and a tool-role message to
scratch memory, the counter increments, and the loop continues with one
successor step. -/
theorem unknown_tool_recoverable_step (w : OpenAIAgentWorker) (step : TaskStep) (task : Task)
    (toolChoice : Option String) (newStepId : String) (toolCall : OpenAIToolCall)
    (functionCall : FunctionCall) (argumentDict : JsVal)
    (hcalls : (msgToolCalls (w.stepAiMessage step task (jsOrElse toolChoice "auto"))).getD []
      = [toolCall])
    (hfc : toolCall.function = some functionCall)
    (hunknown : getFunctionByName (w.getTools task.input) functionCall.name = none)
    (hparse : jsonParse functionCall.arguments = Except.ok argumentDict)
    (hbound : task.extraState.nFunctionCalls ≤ w.maxFunctionCalls) :
    ∃ result : Task × TaskStepOutput,
      w.runStep step task toolChoice newStepId = Except.ok result ∧
        result.2.isDone = false ∧
        result.2.nextSteps = [TaskStep.mk step.taskId newStepId none] ∧
        result.1.extraState.sources =
          task.extraState.sources ++ [callToolWithErrorHandling none argumentDict] ∧
        (callToolWithErrorHandling none argumentDict).isError = true ∧
        result.1.extraState.newMemory.get.getLast?.map (fun m => m.role) =
          some MessageRole.tool ∧
        result.1.extraState.nFunctionCalls = task.extraState.nFunctionCalls + 1 := by
  have hlatest : w.stepLatestToolCalls step task (jsOrElse toolChoice "auto") = [toolCall] := by
    unfold OpenAIAgentWorker.stepLatestToolCalls
    rw [getLatestToolCalls_stepTask2]
    exact hcalls
  have hsc : w.shouldContinue (some [toolCall])
      (w.stepTask2 step task (jsOrElse toolChoice "auto")).extraState.nFunctionCalls = true := by
    rw [stepTask2_nFunctionCalls]
    exact shouldContinue_cons w toolCall [] task.extraState.nFunctionCalls hbound
  have hdisp : w.dispatchToolCalls (w.getTools task.input) [toolCall]
      (w.stepTask2 step task (jsOrElse toolChoice "auto")) =
      Except.ok
        (Task.mk (w.stepTask2 step task (jsOrElse toolChoice "auto")).taskId
          (w.stepTask2 step task (jsOrElse toolChoice "auto")).input
          (w.stepTask2 step task (jsOrElse toolChoice "auto")).memory
          (ExtraState.mk
            ((w.stepTask2 step task (jsOrElse toolChoice "auto")).extraState.sources ++
              [callToolWithErrorHandling none argumentDict])
            ((w.stepTask2 step task (jsOrElse toolChoice "auto")).extraState.nFunctionCalls + 1)
            ((w.stepTask2 step task (jsOrElse toolChoice "auto")).extraState.newMemory.put
              (ChatMessage.mk MessageRole.tool
                (stringOfToolOutput (callToolWithErrorHandling none argumentDict))
                (some (AdditionalKwargs.mk (some functionCall.name) (some toolCall.id)
                  none)))))) := by
    simp only [OpenAIAgentWorker.dispatchToolCalls]
    rw [callFunction_method_unknown_tool w (w.getTools task.input) toolCall functionCall
      argumentDict _ _ hfc hunknown hparse]
  refine ⟨(Task.mk (w.stepTask2 step task (jsOrElse toolChoice "auto")).taskId
      (w.stepTask2 step task (jsOrElse toolChoice "auto")).input
      (w.stepTask2 step task (jsOrElse toolChoice "auto")).memory
      (ExtraState.mk
        ((w.stepTask2 step task (jsOrElse toolChoice "auto")).extraState.sources ++
          [callToolWithErrorHandling none argumentDict])
        ((w.stepTask2 step task (jsOrElse toolChoice "auto")).extraState.nFunctionCalls + 1)
        ((w.stepTask2 step task (jsOrElse toolChoice "auto")).extraState.newMemory.put
          (ChatMessage.mk MessageRole.tool
            (stringOfToolOutput (callToolWithErrorHandling none argumentDict))
            (some (AdditionalKwargs.mk (some functionCall.name) (some toolCall.id) none))))),
    TaskStepOutput.mk (w.stepResponse step task (jsOrElse toolChoice "auto")) step
      [step.getNextStep newStepId none] false), ?_, rfl, rfl, ?_, rfl, ?_, ?_⟩
  · unfold OpenAIAgentWorker.runStep OpenAIAgentWorker.runStepImpl
    dsimp only
    rw [hlatest, hsc]
    simp only [if_true]
    rw [hdisp]
  · dsimp only
    rw [stepTask2_sources]
  · dsimp only [ChatMemoryBuffer.put, ChatMemoryBuffer.get]
    rw [List.getLast?_concat]
    rfl
  · dsimp only
    rw [stepTask2_nFunctionCalls]

/-- The unknown-tool call with a well-formed (empty-object) argument
payload. -/
def mysteryToolCall : OpenAIToolCall :=
  OpenAIToolCall.mk "call_m" (some (FunctionCall.mk "mystery" "\x7b\x7d"))

/-- Worker whose LLM oracle requests the unknown tool with valid JSON
arguments. -/
def c3Worker : OpenAIAgentWorker :=
  OpenAIAgentWorker.mk (fun _ => assistantRequesting [mysteryToolCall]) false
    DEFAULT_MAX_FUNCTION_CALLS [] (fun _ => [sumNumbersTool])

/-- Witness for the amended C3 at the concrete unknown-tool call. -/
theorem unknown_tool_recoverable_step_witness :
    ∃ result : Task × TaskStepOutput,
      c3Worker.runStep c6Step c6Task (some "auto") "step2" = Except.ok result ∧
        result.2.isDone = false ∧
        result.2.nextSteps = [TaskStep.mk c6Step.taskId "step2" none] ∧
        result.1.extraState.sources =
          c6Task.extraState.sources ++ [callToolWithErrorHandling none (JsVal.obj [])] ∧
        (callToolWithErrorHandling none (JsVal.obj [])).isError = true ∧
        result.1.extraState.newMemory.get.getLast?.map (fun m => m.role) =
          some MessageRole.tool ∧
        result.1.extraState.nFunctionCalls = c6Task.extraState.nFunctionCalls + 1 :=
  unknown_tool_recoverable_step c3Worker c6Step c6Task (some "auto") "step2" mysteryToolCall
    (FunctionCall.mk "mystery" "\x7b\x7d") (JsVal.obj []) (by rfl) rfl rfl (by rfl) (by decide)

/-- The unknown-tool call whose argument payload is also malformed
JSON. -/
def mysteryBadToolCall : OpenAIToolCall :=
  OpenAIToolCall.mk "call_mb" (some (FunctionCall.mk "mystery" "not json"))

/-- Worker whose LLM oracle requests the unknown tool with malformed
arguments. -/
def c3BadWorker : OpenAIAgentWorker :=
  OpenAIAgentWorker.mk (fun _ => assistantRequesting [mysteryBadToolCall]) false
    DEFAULT_MAX_FUNCTION_CALLS [] (fun _ => [sumNumbersTool])

/-- One `runStep` of `c3BadWorker` on a fresh task. -/
def c3BadRun : Except String (Task × TaskStepOutput) :=
  c3BadWorker.runStep c6Step c6Task (some "auto") "step2"

/-- C3 counterexample: a step whose LLM response requests a tool call
whose name matches no tool can still raise past the step boundary — when
that same call's argument payload is malformed JSON, the parse failure
propagates out of `runStep` before any unknown-tool `ToolOutput` is
produced, so no tool-role message is appended and no step output is
returned. -/
theorem unknown_tool_can_raise_counterexample :
    c3BadRun.toOption = none ∧
      getFunctionByName (c3BadWorker.getTools c6Task.input) "mystery" = none :=
  ⟨rfl, rfl⟩

end LlamaAgent
